import Mathlib

/-!
Verification development for the beauty-clinic advisor repository.

The Python sources are shallowly embedded as executable Lean definitions:

* dictionaries with optional keys become structures with `Option` fields,
  and every `dict.get(key, default)` read site becomes an explicit
  `Option.getD`;
* Python strings are Lean `String`s, operated on through their `data`
  character lists (`pyLower`, `isSub`, `pyTokensAux` model `str.lower`,
  the `in` substring test, and `str.split()` respectively; lowercasing is
  ASCII as in `Char.toLower`);
* floats (ratings) become `Rat` (all ratings in the data are decimal);
  the decimal rendering of a number inside a display template is
  abstracted by `ratText`;
* code that can raise returns `Except Unit`; mutation of `self` becomes
  explicit state passing (`ChatSt`, `ServerSt`).
-/

/-- Model of Python `list.isPrefixOf`-style prefix test on character lists:
`isPre n h` is true when `n` is a leading run of `h`. -/
def isPre : List Char → List Char → Bool
  | [], _ => true
  | _ :: _, [] => false
  | a :: t, b :: u => a == b && isPre t u

/-- Model of the Python substring test `n in h` over character lists:
true when `n` occurs contiguously inside `h` (the empty needle matches). -/
def isSub (n : List Char) : List Char → Bool
  | [] => isPre n []
  | b :: u => isPre n (b :: u) || isSub n u

/-- Python `needle in hay` on strings. -/
def strIn (needle hay : String) : Bool := isSub needle.data hay.data

/-- Python `str.lower()` (ASCII lowering, which covers the repository data). -/
def pyLower (s : String) : String := String.mk (s.data.map Char.toLower)

/-- Accumulator loop behind Python `str.split()`: scan the characters,
flushing the current (reversed) word at each whitespace run. -/
def pyTokensAux : List Char → List Char → List (List Char)
  | [], cur => if cur.isEmpty then [] else [cur.reverse]
  | c :: rest, cur =>
    if c.isWhitespace then
      if cur.isEmpty then pyTokensAux rest [] else cur.reverse :: pyTokensAux rest []
    else pyTokensAux rest (c :: cur)

/-- Python `s.split()`: whitespace-separated tokens, no empty tokens. -/
def splitWs (s : String) : List String := (pyTokensAux s.data []).map String.mk

/-- Python `str.strip()` on a character list. -/
def stripChars (l : List Char) : List Char :=
  ((l.dropWhile Char.isWhitespace).reverse.dropWhile Char.isWhitespace).reverse

/-- Python truthiness test `not s.strip()` (whitespace-only or empty). -/
def pyStripEmpty (s : String) : Bool := (stripChars s.data).isEmpty

/-- Python truthiness of an optional string field: present and non-empty. -/
def truthyS : Option String → Bool
  | none => false
  | some s => !(s == "")

/-- Python slice `l[-n:]`: the last `n` elements (all of them when shorter). -/
def lastN {α : Type} (n : Nat) (l : List α) : List α := l.drop (l.length - n)

/-- Python `str.capitalize()`. -/
def pyCapitalize (s : String) : String :=
  match s.data with
  | [] => ""
  | c :: t => String.mk (c.toUpper :: t.map Char.toLower)

/-- Rendering of a rational inside a display template (abstracts Python float
formatting; no claim depends on the digits). -/
def ratText (q : Rat) : String := toString q.num ++ "/" ++ toString q.den

/-- Python `'⭐' * int(rating)` (negative counts render as the empty string). -/
def starText (q : Rat) : String := String.mk (List.replicate (Int.toNat q.floor) '⭐')

/-- Python `', '.join(xs)`. -/
def joinComma (xs : List String) : String := String.intercalate ", " xs

/-- A raw clinic record: a JSON object whose keys may all be absent, as
consumed by `scraper/data_processor.py` and `advisor/*.py`. -/
structure Clinic where
  id : Option String := none
  name : Option String := none
  description : Option String := none
  area : Option String := none
  location : Option String := none
  category : Option String := none
  services : Option (List String) := none
  rating : Option Rat := none
  review_count : Option Nat := none
  price_range : Option String := none
  features : Option (List String) := none
  access : Option String := none
  phone : Option String := none
  website : Option String := none
  name_japanese : Option String := none
  description_japanese : Option String := none
  address : Option String := none
  address_japanese : Option String := none
deriving DecidableEq

/-- Read-site default `clinic.get('rating', 0)`. -/
def getRating (c : Clinic) : Rat := c.rating.getD 0

/-- Read-site default `clinic.get('services', [])`. -/
def getServices (c : Clinic) : List String := c.services.getD []

/-- DataProcessor.load_clinics: reads the JSON file and stores its parsed
contents verbatim; a missing file yields `[]`. The file contents are
modelled as `Option (List Clinic)` (`none` = file not found). -/
def load_clinics (file : Option (List Clinic)) : List Clinic :=
  match file with
  | none => []
  | some data => data

/-- DataProcessor.filter_by_rating. -/
def filter_by_rating (clinics : List Clinic) (min_rating : Rat) : List Clinic :=
  clinics.filter (fun c => decide (min_rating ≤ getRating c))

/-- DataProcessor.filter_by_location: keeps clinics whose `location` OR
`area` field contains the query as a case-insensitive substring. -/
def filter_by_location (clinics : List Clinic) (location : String) : List Clinic :=
  clinics.filter (fun c =>
    strIn (pyLower location) (pyLower (c.location.getD "")) ||
    strIn (pyLower location) (pyLower (c.area.getD "")))

/-- DataProcessor.filter_by_category. -/
def filter_by_category (clinics : List Clinic) (category : String) : List Clinic :=
  clinics.filter (fun c => strIn (pyLower category) (pyLower (c.category.getD "")))

/-- Descending-by-rating comparison used by `sorted(..., reverse=True)`. -/
def rating_desc (a b : Clinic) : Bool := decide (getRating b ≤ getRating a)

/-- The stable descending sort performed inside DataProcessor.get_top_rated
(Python `sorted` is stable; `mergeSort` is its stable-sort model). -/
def sort_by_rating (clinics : List Clinic) : List Clinic :=
  clinics.mergeSort rating_desc

/-- DataProcessor.get_top_rated. -/
def get_top_rated (clinics : List Clinic) (n : Nat) : List Clinic :=
  (sort_by_rating clinics).take n

/-- The composed searchable text of DataProcessor.search_by_keyword:
name, description, area, location, category and the services joined with
spaces (before lowering). -/
def searchable_text (c : Clinic) : String :=
  String.intercalate " "
    [c.name.getD "", c.description.getD "", c.area.getD "", c.location.getD "",
     c.category.getD "", String.intercalate " " (getServices c)]

/-- The per-clinic match test of search_by_keyword: any query token occurs
in the lowered searchable text. -/
def clinic_matches (keywords : List String) (c : Clinic) : Bool :=
  keywords.any (fun kw => strIn kw (pyLower (searchable_text c)))

/-- DataProcessor.search_by_keyword. -/
def search_by_keyword (clinics : List Clinic) (keyword : String) : List Clinic :=
  clinics.filter (clinic_matches (splitWs (pyLower keyword)))

/-- One `d[k] = d.get(k, 0) + 1` update on an insertion-ordered dict. -/
def bump (k : String) : List (String × Nat) → List (String × Nat)
  | [] => [(k, 1)]
  | (k2, n) :: t => if k2 = k then (k2, n + 1) :: t else (k2, n) :: bump k t

/-- The counting loop of get_statistics over a list of keys. -/
def tally (keys : List String) : List (String × Nat) :=
  keys.foldl (fun d k => bump k d) []

/-- Sum of the counts held in an insertion-ordered dict. -/
def sumSnd (d : List (String × Nat)) : Nat := (d.map Prod.snd).sum

/-- The dictionary returned by DataProcessor.get_statistics on a non-empty
store. -/
structure Statistics where
  total_clinics : Nat
  average_rating : Rat
  categories : List (String × Nat)
  locations : List (String × Nat)
deriving DecidableEq

/-- DataProcessor.get_statistics: `none` models the empty dict `{}` that the
code returns for an empty store (it holds none of the statistics keys). -/
def get_statistics (clinics : List Clinic) : Option Statistics :=
  if clinics.isEmpty then none
  else
    let ratings := clinics.map getRating
    some
      { total_clinics := clinics.length
        average_rating := if ratings.isEmpty then 0 else ratings.sum / (ratings.length : Rat)
        categories := tally (clinics.map (fun c => c.category.getD "Unknown"))
        locations := tally (clinics.map (fun c => c.location.getD "Unknown")) }

/-- The Translator of `advisor/translator.py`: an availability flag plus the
external `ja_to_en.translate` capability. A call may raise
(`Except.error`) or return `None` (`Except.ok none`) or a string. -/
structure Translator where
  enabled : Bool
  ja_to_en : String → Except Unit (Option String)

/-- Translator.translate_to_english: empty or whitespace-only text gives "",
a disabled translator returns the text unchanged, and a raised error or
falsy translation result falls back to the input text. -/
def translate_to_english (tr : Translator) (text : String) : String :=
  if text == "" || pyStripEmpty text then ""
  else if !tr.enabled then text
  else
    match tr.ja_to_en text with
    | Except.error _ => text
    | Except.ok none => text
    | Except.ok (some t) => if t == "" then text else t

/-- One field pass of Translator.translate_clinic_data: when the localized
field is present and non-empty and the English field is absent or empty,
the English field is set to the translation; otherwise it is untouched. -/
def fieldStep (tr : Translator) (loc eng : Option String) : Option String :=
  if truthyS loc && !truthyS eng then some (translate_to_english tr (loc.getD ""))
  else eng

/-- Translator.translate_clinic_data: a disabled translator returns the
record unchanged; otherwise the three bilingual fields are reconciled. -/
def translate_clinic_data (tr : Translator) (c : Clinic) : Clinic :=
  if !tr.enabled then c
  else
    { c with
      name := fieldStep tr c.name_japanese c.name
      description := fieldStep tr c.description_japanese c.description
      address := fieldStep tr c.address_japanese c.address }

/-- The VectorStore of `advisor/vector_store.py`: `vectorstore` is `none`
until a semantic index is built or loaded; when set, it is the external
similarity-search capability (which may itself raise). -/
structure VectorStore where
  vectorstore : Option (String → Nat → Except Unit (List Clinic))

/-- VectorStore.search: an uninitialized store or a raised backend error
yields the empty result. -/
def VectorStore.search (vs : VectorStore) (query : String) (k : Nat) : List Clinic :=
  match vs.vectorstore with
  | none => []
  | some f =>
    match f query k with
    | Except.ok cs => cs
    | Except.error _ => []

/-- One conversation turn stored in BeautyAdvisor.conversation_history. -/
structure Turn where
  role : String
  content : String
deriving DecidableEq

/-- A message sent to the generation backend (System/Human in the source). -/
inductive Msg where
  | system : String → Msg
  | human : String → Msg
deriving DecidableEq

/-- The mutable state of one BeautyAdvisor instance: the loaded clinics,
the vector store, the optional generation backend (`none` models both a
missing library and a missing key) and the conversation history. -/
structure ChatSt where
  clinics : List Clinic
  vector_store : VectorStore
  llm : Option (List Msg → Except Unit String)
  conversation_history : List Turn

/-- BeautyAdvisor.search_clinics: the semantic index is used exactly when
`vector_store.vectorstore` is set; otherwise keyword search. -/
def search_clinics (st : ChatSt) (query : String) : List Clinic :=
  match st.vector_store.vectorstore with
  | some _ => st.vector_store.search query 5
  | none => search_by_keyword st.clinics query

/-- BeautyAdvisor.get_system_prompt. -/
def get_system_prompt : String :=
  "You are an AI Beauty Advisor specializing in Japanese beauty clinics. \n" ++
  "Your role is to help international travelers find, compare, and book beauty treatments in Japan.\n\n" ++
  "You have access to information about beauty clinics including:\n" ++
  "- Names, locations, and contact information\n" ++
  "- Services offered and price ranges\n" ++
  "- Customer ratings and reviews\n" ++
  "- Accessibility and features\n\n" ++
  "Guidelines:\n" ++
  "1. Be friendly, professional, and helpful\n" ++
  "2. Provide clear, accurate information about clinics\n" ++
  "3. Help users understand their options\n" ++
  "4. Guide them through the booking process\n" ++
  "5. Explain any Japanese beauty culture or terminology\n" ++
  "6. Always translate Japanese terms to English\n" ++
  "7. Give personalized recommendations based on user preferences\n\n" ++
  "When users ask about clinics, search the database and provide detailed, relevant information.\n" ++
  "If you\x27re not sure about something, be honest and suggest alternatives.\n"

/-- BeautyAdvisor.format_clinic_info: raises (`Except.error`) when the
record has no `name` key (`clinic['name']` is a direct subscript), and
otherwise renders the display block from the defaulted fields. -/
def format_clinic_info (c : Clinic) : Except Unit String :=
  match c.name with
  | none => Except.error ()
  | some n =>
    Except.ok
      ("\n📍 **" ++ n ++ "**\n   Category: " ++ pyCapitalize (c.category.getD "N/A") ++
       "\n   Location: " ++ c.area.getD "" ++ ", " ++ pyCapitalize (c.location.getD "") ++
       "\n   Rating: " ++ starText (getRating c) ++ " " ++
       (match c.rating with | none => "N/A" | some q => ratText q) ++ "/5 (" ++
       toString (c.review_count.getD 0) ++ " reviews)\n   \n   Services: " ++
       joinComma (getServices c) ++ "\n   Price Range: " ++ c.price_range.getD "N/A" ++
       "\n   \n   " ++ c.description.getD "" ++ "\n   \n   Features: " ++
       joinComma (c.features.getD []) ++ "\n   Access: " ++ c.access.getD "" ++
       "\n   Phone: " ++ c.phone.getD "N/A" ++ "\n   Website: " ++ c.website.getD "N/A" ++ "\n")

/-- The search-trigger keywords of BeautyAdvisor.chat. -/
def search_keywords : List String :=
  ["find", "search", "looking for", "recommend", "best", "clinic", "salon"]

/-- BeautyAdvisor.chat's trigger test: any keyword occurs in the lowered
message. -/
def should_search (user_message : String) : Bool :=
  search_keywords.any (fun kw => strIn kw (pyLower user_message))

/-- The clinics retrieved by one chat call (empty when no trigger fires). -/
def retrieved_clinics (st : ChatSt) (user_message : String) : List Clinic :=
  if should_search user_message then search_clinics st user_message else []

/-- The clinic-context accumulation loop of BeautyAdvisor.chat: an intro
line plus a formatted block for each of the first three results; a raise
inside format_clinic_info propagates. No results leave the context "". -/
def clinic_context_of (clinics : List Clinic) : Except Unit String :=
  if clinics.isEmpty then Except.ok ""
  else
    (clinics.take 3).foldlM
      (fun acc c => (format_clinic_info c).map (fun s => acc ++ s))
      "\n\nRelevant clinics:\n"

/-- BeautyAdvisor._generate_fallback_response. -/
def generate_fallback_response (_user_message : String) (clinic_context : String) : String :=
  let response := "I\x27m here to help you find the perfect beauty clinic in Japan! "
  if !(clinic_context == "") then
    response ++ "\n" ++ clinic_context ++ "\n\nWould you like more information about any of these clinics?"
  else
    response ++ "\nI can help you:\n" ++
    "- Find beauty clinics by location or service\n" ++
    "- Compare different clinics\n" ++
    "- Provide information about services and prices\n" ++
    "- Guide you through the booking process\n\n" ++
    "Try asking me something like:\n" ++
    "- \x27Find me a salon in Shibuya\x27\n" ++
    "- \x27What are the best rated clinics?\x27\n" ++
    "- \x27I\x27m looking for facial treatments\x27\n"

/-- The message list BeautyAdvisor.chat sends to the generation backend:
the system prompt, the last five history turns as human messages, and the
clinic context when non-empty. -/
def build_messages (history : List Turn) (clinic_context : String) : List Msg :=
  [Msg.system get_system_prompt] ++
  (lastN 5 history).map (fun t => Msg.human t.content) ++
  (if clinic_context == "" then [] else
    [Msg.system ("Here is relevant clinic information:" ++ clinic_context)])

/-- The reply branch of BeautyAdvisor.chat: the generation backend when one
is configured (its errors fall back), the deterministic fallback
otherwise. The window it sends is taken from the history with the user
turn already appended. -/
def chat_reply (st : ChatSt) (user_message : String) (clinic_context : String) : String :=
  match st.llm with
  | some generate =>
    match generate (build_messages
        (st.conversation_history ++ [Turn.mk "user" user_message]) clinic_context) with
    | Except.ok r => r
    | Except.error _ => generate_fallback_response user_message clinic_context
  | none => generate_fallback_response user_message clinic_context

/-- BeautyAdvisor.chat. The user turn is appended first; the search runs
next (it reads only the clinics and the vector store); composing the
clinic context can raise, in which case the exception propagates with the
user turn already stored; otherwise the reply is computed and the
assistant turn is appended. -/
def chat (st : ChatSt) (user_message : String) : ChatSt × Except Unit String :=
  let hist1 := st.conversation_history ++ [Turn.mk "user" user_message]
  let st1 : ChatSt := { st with conversation_history := hist1 }
  match clinic_context_of (retrieved_clinics st user_message) with
  | Except.error e => (st1, Except.error e)
  | Except.ok clinic_context =>
    let assistant_message := chat_reply st user_message clinic_context
    ({ st1 with conversation_history := hist1 ++ [Turn.mk "assistant" assistant_message] },
     Except.ok assistant_message)

/-- The Flask module state of `main.py`: one process-wide advisor slot. -/
structure ServerSt where
  advisor : Option ChatSt

/-- main.get_advisor: returns the global advisor, creating it on first use.
`init` is the advisor state BeautyAdvisor() constructs at startup. -/
def get_advisor (init : ChatSt) (s : ServerSt) : ChatSt × ServerSt :=
  match s.advisor with
  | some a => (a, s)
  | none => (init, { advisor := some init })

/-- The /api/chat handler: every request, whichever caller sent it, chats
against the single global advisor; the mutated advisor stays global even
when chat raises (the handler answers 500 in that case). -/
def api_chat (init : ChatSt) (s : ServerSt) (message : String) : ServerSt × Except Unit String :=
  let p := get_advisor init s
  let r := chat p.1 message
  ({ advisor := some r.1 }, r.2)

/-- A request sequence against the server: each request is a (session,
message) pair; the session tag is invisible to the code, which routes
every message to the same global advisor. -/
def runRequests (init : ChatSt) (s : ServerSt) (reqs : List (String × String)) : ServerSt :=
  reqs.foldl (fun st req => (api_chat init st req.2).1) s

/-- The conversation history held by the global advisor. -/
def hist_of (s : ServerSt) : List Turn :=
  match s.advisor with
  | none => []
  | some a => a.conversation_history

/-- A fresh advisor with no backends, as constructed on a host without the
optional libraries: no vector store, no generation backend. -/
def init_advisor (clinics : List Clinic) : ChatSt :=
  { clinics := clinics
    vector_store := { vectorstore := none }
    llm := none
    conversation_history := [] }

/-- The two-record store of the specification's test scenario. -/
def t1 : Clinic :=
  { id := some "t1", name := some "Shibuya Test Salon", location := some "tokyo",
    area := some "Shibuya", rating := some 4.5, category := some "salon",
    services := some ["Hair Cut"] }

/-- Second record of the scenario store. -/
def t2 : Clinic :=
  { id := some "t2", name := some "Namba Nails", location := some "osaka",
    area := some "Namba", rating := some 4.8, category := some "nail",
    services := some ["Nail Art"] }

/-- A third record sharing t1's rating, to exercise sort stability. -/
def t3 : Clinic :=
  { id := some "t3", name := some "Ginza Spa", location := some "tokyo",
    area := some "Ginza", rating := some 4.5, category := some "spa",
    services := some ["Massage"] }

/-- The scenario store. -/
def demoStore : List Clinic := [t1, t2]

/-- A store with a duplicated rating, original order t1 before t3. -/
def demoStore3 : List Clinic := [t1, t2, t3]

/-- A raw record with no usable id and an out-of-range rating, as the load
path may encounter (nothing in the repository forbids it). -/
def noIdClinic : Clinic := { description := some "no id here", rating := some 7 }

/-- A translator whose capability is absent (deep-translator not
installed or failed to initialize). -/
def tr_off : Translator := { enabled := false, ja_to_en := fun _ => Except.error () }

/-- A translator that is enabled but whose backend raises on every call. -/
def tr_fail : Translator := { enabled := true, ja_to_en := fun _ => Except.error () }

/-- A record carrying only a localized name. -/
def c7x : Clinic := { name_japanese := some "東京サロン" }

/-- A record located in tokyo whose area field is Shibuya. -/
def c9x : Clinic := { location := some "tokyo", area := some "Shibuya" }

/-- A searchable record with no name key: its description matches the
query token find, and formatting it raises a KeyError. -/
def badClinic : Clinic := { description := some "come find us" }

/-- Characterization of the prefix test: `isPre n h` holds exactly when `h`
extends `n`. -/
theorem isPre_iff (n : List Char) : ∀ (h : List Char), isPre n h = true ↔ ∃ t, n ++ t = h := by
  induction n with
  | nil =>
    intro h
    simp [isPre]
  | cons a t ih =>
    intro h
    cases h with
    | nil =>
      simp [isPre]
    | cons b u =>
      simp only [isPre, Bool.and_eq_true, beq_iff_eq, ih u]
      constructor
      · rintro ⟨rfl, t2, rfl⟩
        exact ⟨t2, rfl⟩
      · rintro ⟨t2, he⟩
        injection he with h1 h2
        exact ⟨h1, t2, h2⟩

/-- Characterization of the substring test: `isSub n h` holds exactly when
`n` occurs contiguously inside `h`. -/
theorem isSub_iff (n : List Char) : ∀ (h : List Char), isSub n h = true ↔ ∃ pre post, h = pre ++ n ++ post := by
  intro h
  induction h with
  | nil =>
    simp only [isSub, isPre_iff]
    constructor
    · rintro ⟨t, ht⟩
      rcases List.append_eq_nil.mp ht with ⟨rfl, rfl⟩
      exact ⟨[], [], rfl⟩
    · rintro ⟨pre, post, he⟩
      rcases List.append_eq_nil.mp he.symm with ⟨h1, rfl⟩
      rcases List.append_eq_nil.mp h1 with ⟨rfl, rfl⟩
      exact ⟨[], rfl⟩
  | cons b u ih =>
    simp only [isSub, Bool.or_eq_true, isPre_iff, ih]
    constructor
    · rintro (⟨t, ht⟩ | ⟨pre, post, he⟩)
      · exact ⟨[], t, ht.symm⟩
      · exact ⟨b :: pre, post, by simp [he]⟩
    · rintro ⟨pre, post, he⟩
      cases pre with
      | nil =>
        exact Or.inl ⟨post, by simpa using he.symm⟩
      | cons p ps =>
        injection he with h1 h2
        exact Or.inr ⟨ps, post, h2⟩

/-- String-level reading of the substring test. -/
theorem strIn_iff (needle hay : String) :
    strIn needle hay = true ↔ ∃ pre post, hay.data = pre ++ needle.data ++ post :=
  isSub_iff needle.data hay.data

/-- Lowercasing never turns a whitespace character into a non-whitespace
one. -/
theorem toLower_ws (c : Char) (h : c.isWhitespace = true) :
    (Char.toLower c).isWhitespace = true := by
  have h2 : ((c = ' ' ∨ c = '\t') ∨ c = '\x0d') ∨ c = '\n' := by
    simpa [Char.isWhitespace, Bool.or_eq_true, decide_eq_true_iff] using h
  rcases h2 with ((rfl | rfl) | rfl) | rfl <;> decide

/-- The tokenizer returns no token on whitespace-only input. -/
theorem pyTokensAux_ws : ∀ (s : List Char), (∀ c ∈ s, c.isWhitespace = true) →
    pyTokensAux s [] = [] := by
  intro s
  induction s with
  | nil => intro _; rfl
  | cons c rest ih =>
    intro h
    have hc : c.isWhitespace = true := h c (List.mem_cons_self c rest)
    simp only [pyTokensAux, hc, if_true, List.isEmpty_nil]
    exact ih (fun d hd => h d (List.mem_cons_of_mem c hd))

/-- Whitespace-only queries produce no tokens after lowering. -/
theorem splitWs_ws (q : String) (h : ∀ c ∈ q.data, c.isWhitespace = true) :
    splitWs (pyLower q) = [] := by
  have : pyTokensAux ((pyLower q).data) [] = [] := by
    apply pyTokensAux_ws
    intro c hc
    simp only [pyLower] at hc
    rcases List.mem_map.mp hc with ⟨d, hd, rfl⟩
    exact toLower_ws d (h d hd)
  simp [splitWs, this]

/-- C1: for every store and query, search_by_keyword returns a subsequence
of the store in original order; a record is included iff it is in the
store and at least one whitespace-split token of the lowered query occurs
as a substring of the record's lowered composed searchable text (name,
description, area, location, category, services joined with spaces); and
a query whose characters are all whitespace (in particular the empty
query) yields the empty result. -/
theorem keyword_search_spec (clinics : List Clinic) (q : String) :
    List.Sublist (search_by_keyword clinics q) clinics
    ∧ (∀ c, c ∈ search_by_keyword clinics q ↔
        c ∈ clinics ∧ ∃ t ∈ splitWs (pyLower q),
          ∃ pre post, (pyLower (searchable_text c)).data = pre ++ t.data ++ post)
    ∧ ((∀ ch ∈ q.data, ch.isWhitespace = true) → search_by_keyword clinics q = []) := by
  refine ⟨List.filter_sublist clinics, ?_, ?_⟩
  · intro c
    rw [search_by_keyword, List.mem_filter]
    simp only [clinic_matches, List.any_eq_true, strIn_iff]
  · intro h
    rw [search_by_keyword, splitWs_ws q h]
    simp [clinic_matches]

/-- Witness for C1: the whitespace-only query returns nothing on the
scenario store, and the query shibuya finds exactly what the token
characterization admits. -/
theorem keyword_search_witness :
    search_by_keyword demoStore "  " = []
    ∧ t1 ∈ search_by_keyword demoStore "shibuya" :=
  ⟨(keyword_search_spec demoStore "  ").2.2 (by decide),
   ((keyword_search_spec demoStore "shibuya").2.1 t1).mpr
     ⟨List.mem_cons_self t1 [t2], "shibuya", by decide, [],
      " test salon  shibuya tokyo salon hair cut".data, by decide⟩⟩

/-- C2: search_clinics delegates to the vector store exactly when its
`vectorstore` is initialized, and otherwise returns exactly the keyword
search result; the choice is a function of the state at each call (a
state whose vector store just became ready is served semantically), and
every call returns wholly one of the two results, never a mixture. -/
theorem orchestrator_fallback (st : ChatSt) (q : String) :
    (st.vector_store.vectorstore = none →
      search_clinics st q = search_by_keyword st.clinics q)
    ∧ (st.vector_store.vectorstore.isSome = true →
      search_clinics st q = st.vector_store.search q 5)
    ∧ (search_clinics st q = st.vector_store.search q 5
       ∨ search_clinics st q = search_by_keyword st.clinics q)
    ∧ (∀ f, search_clinics { st with vector_store := VectorStore.mk (some f) } q
        = (VectorStore.mk (some f)).search q 5) := by
  refine ⟨?_, ?_, ?_, fun f => rfl⟩
  · intro h
    simp [search_clinics, h]
  · intro h
    cases hv : st.vector_store.vectorstore with
    | none => rw [hv] at h; simp at h
    | some f => simp [search_clinics, hv]
  · cases hv : st.vector_store.vectorstore with
    | none => exact Or.inr (by simp [search_clinics, hv])
    | some f => exact Or.inl (by simp [search_clinics, hv])

/-- Witness for C2: an advisor without any embedding capability answers a
query exactly through the keyword index. -/
theorem orchestrator_fallback_witness :
    search_clinics (init_advisor demoStore) "anything"
      = search_by_keyword demoStore "anything" :=
  (orchestrator_fallback (init_advisor demoStore) "anything").1 rfl

/-- C4 counterexample: load_clinics keeps a record that lacks a usable id
instead of skipping it, and its out-of-range rating 7 survives the load
unclamped (so neither skipping nor clamping into [0,5] happens). -/
theorem load_no_validation_cex :
    load_clinics (some [noIdClinic]) = [noIdClinic]
    ∧ noIdClinic.id = none
    ∧ getRating noIdClinic = 7
    ∧ ¬ getRating noIdClinic ≤ 5 := by
  refine ⟨rfl, rfl, rfl, ?_⟩
  show ¬ (7 : Rat) ≤ 5
  norm_num

/-- C4 amended: load_clinics performs no per-record validation at all — it
returns the parsed batch unchanged and a missing file yields the empty
list; hence every record of the batch is loaded (trivially, a record with
a usable id is never dropped because of another malformed record), and no
rating clamping or sequence-field defaulting happens at load time
(defaults are applied at each read site instead). -/
theorem load_clinics_spec (raw : List Clinic) :
    load_clinics (some raw) = raw
    ∧ load_clinics none = []
    ∧ ∀ c ∈ raw, c ∈ load_clinics (some raw) :=
  ⟨rfl, rfl, fun _ hc => hc⟩

/-- Witness for C4: the id-less record itself is among the loaded records. -/
theorem load_clinics_witness : noIdClinic ∈ load_clinics (some [noIdClinic]) :=
  (load_clinics_spec [noIdClinic]).2.2 noIdClinic (List.mem_cons_self noIdClinic [])

/-- One dict-update step adds exactly one to the stored counts. -/
theorem sumSnd_bump (k : String) : ∀ (d : List (String × Nat)), sumSnd (bump k d) = sumSnd d + 1 := by
  intro d
  induction d with
  | nil => rfl
  | cons p t ih =>
    obtain ⟨k2, n⟩ := p
    by_cases h : k2 = k
    · simp only [bump, h, if_true, sumSnd, List.map_cons, List.sum_cons]
      omega
    · simp only [bump, h, if_false, sumSnd, List.map_cons, List.sum_cons] at ih ⊢
      omega

/-- The counting loop covers every key exactly once. -/
theorem sumSnd_tally (keys : List String) : sumSnd (tally keys) = keys.length := by
  suffices h : ∀ d, sumSnd (keys.foldl (fun d k => bump k d) d) = sumSnd d + keys.length by
    simpa [tally, sumSnd] using h []
  induction keys with
  | nil => intro d; simp
  | cons k t ih =>
    intro d
    simp only [List.foldl_cons, List.length_cons]
    rw [ih (bump k d), sumSnd_bump]
    omega

/-- C5 counterexample: on the empty store get_statistics returns the empty
dict (modelled as `none`), which carries no total, averageRating,
categoryCounts or regionCounts entries — not a dict with total = 0 and
averageRating = 0. -/
theorem statistics_empty_cex : get_statistics ([] : List Clinic) = none := rfl

/-- C5 amended: get_statistics returns the empty dict for an empty store
(so it never divides by zero but also reports no total/averageRating);
for every non-empty store it returns all four entries, with the category
counts summing to total (each record counted exactly once) and the
average equal to the rating sum divided by the record count. -/
theorem statistics_spec :
    get_statistics ([] : List Clinic) = none
    ∧ ∀ (clinics : List Clinic), clinics ≠ [] →
      ∃ s, get_statistics clinics = some s
        ∧ s.total_clinics = clinics.length
        ∧ sumSnd s.categories = s.total_clinics
        ∧ s.average_rating = (clinics.map getRating).sum / (clinics.length : Rat) := by
  refine ⟨rfl, ?_⟩
  intro clinics h
  have he : clinics.isEmpty = false := by
    simpa [List.isEmpty_iff] using h
  have hr : (clinics.map getRating).isEmpty = false := by
    simp [List.isEmpty_iff, h]
  simp only [get_statistics, he, Bool.false_eq_true, if_false, hr]
  refine ⟨_, rfl, rfl, ?_, ?_⟩
  · simp [sumSnd_tally]
  · simp [List.length_map]

/-- Witness for C5: the one-record store has a full statistics dict whose
category counts sum to its total. -/
theorem statistics_witness :
    ([t1] : List Clinic) ≠ []
    ∧ ∃ s, get_statistics [t1] = some s
        ∧ s.total_clinics = ([t1] : List Clinic).length
        ∧ sumSnd s.categories = s.total_clinics
        ∧ s.average_rating = (([t1] : List Clinic).map getRating).sum / ((([t1] : List Clinic).length : Nat) : Rat) :=
  ⟨by simp, statistics_spec.2 [t1] (by simp)⟩

/-- The descending comparison is transitive. -/
theorem rating_desc_trans : ∀ a b c : Clinic,
    rating_desc a b = true → rating_desc b c = true → rating_desc a c = true := by
  intro a b c hab hbc
  simp only [rating_desc, decide_eq_true_iff] at hab hbc ⊢
  exact le_trans hbc hab

/-- The descending comparison is total. -/
theorem rating_desc_total : ∀ a b : Clinic, (rating_desc a b || rating_desc b a) = true := by
  intro a b
  simp only [rating_desc, Bool.or_eq_true, decide_eq_true_iff]
  exact le_total (getRating b) (getRating a)

/-- C6: get_top_rated returns the first n records of the stable descending
sort of the store: the sorted view is a permutation of the store, both it
and the returned slice are pairwise rating-descending (each returned
record's rating is at least the next one's), and any two records with
equal ratings that appear in order in the store appear in the same order
in the sorted view. -/
theorem top_rated_spec (clinics : List Clinic) (n : Nat) :
    get_top_rated clinics n = (sort_by_rating clinics).take n
    ∧ (sort_by_rating clinics).Perm clinics
    ∧ List.Pairwise (fun a b => getRating b ≤ getRating a) (sort_by_rating clinics)
    ∧ List.Pairwise (fun a b => getRating b ≤ getRating a) (get_top_rated clinics n)
    ∧ ∀ a b, getRating a = getRating b → List.Sublist [a, b] clinics →
        List.Sublist [a, b] (sort_by_rating clinics) := by
  have hsorted : List.Pairwise (fun a b => rating_desc a b = true) (sort_by_rating clinics) :=
    List.sorted_mergeSort rating_desc_trans rating_desc_total clinics
  have hs2 : List.Pairwise (fun a b : Clinic => getRating b ≤ getRating a) (sort_by_rating clinics) :=
    hsorted.imp (fun h => by simpa [rating_desc, decide_eq_true_iff] using h)
  refine ⟨rfl, List.mergeSort_perm clinics rating_desc, hs2, ?_, ?_⟩
  · exact List.Pairwise.sublist (List.take_sublist n (sort_by_rating clinics)) hs2
  · intro a b hr hsub
    exact List.pair_sublist_mergeSort rating_desc_trans rating_desc_total
      (by simp [rating_desc, hr]) hsub

/-- Witness for C6: t1 and t3 share rating 4.5 and appear in that order in
the store, so they appear in that order in the sorted view as well. -/
theorem top_rated_witness :
    getRating t1 = getRating t3
    ∧ List.Sublist [t1, t3] demoStore3
    ∧ List.Sublist [t1, t3] (sort_by_rating demoStore3) := by
  have h1 : getRating t1 = getRating t3 := rfl
  have h2 : List.Sublist [t1, t3] demoStore3 :=
    List.Sublist.cons₂ t1 (List.Sublist.cons t2 (List.Sublist.refl [t3]))
  exact ⟨h1, h2, (top_rated_spec demoStore3 2).2.2.2.2 t1 t3 h1 h2⟩

/-- C7 counterexample: with the translation capability absent,
translate_clinic_data returns the record unchanged, so a record carrying
only a localized name resolves its English name to the empty string —
not to the raw localized text, as the claim requires for the
absent-capability case. -/
theorem translator_disabled_cex :
    translate_clinic_data tr_off c7x = c7x
    ∧ c7x.name_japanese = some "東京サロン"
    ∧ (translate_clinic_data tr_off c7x).name.getD "" = "" :=
  ⟨rfl, rfl, rfl⟩

/-- C7 amended: a present non-empty English field is always used verbatim
(even when a localized counterpart exists, for each of the three
bilingual fields); when the translator is enabled, an absent-or-empty
English field is filled from the localized field exactly when that field
is present and non-empty, and a translation call that raises falls back
to the raw localized text; but when the translation capability is absent
the record is returned entirely unchanged — the localized text is NOT
copied over, so the English field resolves to the empty string. The
embedding is a total function, so resolution never raises. -/
theorem bilingual_precedence (tr : Translator) (c : Clinic) :
    (truthyS c.name = true → (translate_clinic_data tr c).name = c.name)
    ∧ (truthyS c.description = true →
        (translate_clinic_data tr c).description = c.description)
    ∧ (truthyS c.address = true → (translate_clinic_data tr c).address = c.address)
    ∧ (tr.enabled = false → translate_clinic_data tr c = c)
    ∧ (tr.enabled = true → truthyS c.name = false →
        (translate_clinic_data tr c).name =
          (if truthyS c.name_japanese = true
           then some (translate_to_english tr (c.name_japanese.getD ""))
           else c.name))
    ∧ (∀ s, tr.enabled = true → stripChars s.data ≠ [] →
        tr.ja_to_en s = Except.error () → translate_to_english tr s = s) := by
  refine ⟨?_, ?_, ?_, ?_, ?_, ?_⟩
  · intro h
    cases htr : tr.enabled with
    | false => simp [translate_clinic_data, htr]
    | true => simp [translate_clinic_data, htr, fieldStep, h]
  · intro h
    cases htr : tr.enabled with
    | false => simp [translate_clinic_data, htr]
    | true => simp [translate_clinic_data, htr, fieldStep, h]
  · intro h
    cases htr : tr.enabled with
    | false => simp [translate_clinic_data, htr]
    | true => simp [translate_clinic_data, htr, fieldStep, h]
  · intro h
    simp [translate_clinic_data, h]
  · intro he hn
    cases hj : truthyS c.name_japanese with
    | false => simp [translate_clinic_data, he, fieldStep, hn, hj]
    | true => simp [translate_clinic_data, he, fieldStep, hn, hj]
  · intro s he hs hcall
    have hs0 : s ≠ "" := by
      intro h0
      exact hs (by rw [h0]; rfl)
    have hne : (s == "") = false := beq_eq_false_iff_ne.mpr hs0
    have hpe : pyStripEmpty s = false := by
      cases hp : pyStripEmpty s with
      | false => rfl
      | true =>
        exact absurd (List.isEmpty_iff.mp hp) hs
    simp [translate_to_english, hne, hpe, he, hcall]

/-- Witness for C7: an enabled translator whose backend raises keeps the
raw localized text untranslated. -/
theorem bilingual_witness :
    tr_fail.enabled = true
    ∧ stripChars ("東京" : String).data ≠ []
    ∧ tr_fail.ja_to_en "東京" = Except.error ()
    ∧ translate_to_english tr_fail "東京" = "東京" :=
  ⟨rfl, by decide, rfl,
   (bilingual_precedence tr_fail c7x).2.2.2.2.2 "東京" rfl (by decide) rfl⟩

/-- C8: the active window of the last five turns is exactly the final
(at most five long) suffix of the stored history, in order, and equals
the whole history when at most five turns exist; computing it never
changes the stored history, and every chat call strictly extends the
stored history (it is never truncated, so it grows across the session). -/
theorem active_window_spec :
    (∀ (h : List Turn), h.length ≤ 5 → lastN 5 h = h)
    ∧ (∀ (h : List Turn), (lastN 5 h).length = min 5 h.length
        ∧ List.take (h.length - 5) h ++ lastN 5 h = h)
    ∧ (∀ (st : ChatSt) (m : String),
        (∃ t, st.conversation_history ++ t = (chat st m).1.conversation_history)
        ∧ st.conversation_history.length < (chat st m).1.conversation_history.length) := by
  refine ⟨?_, ?_, ?_⟩
  · intro h hl
    simp [lastN, Nat.sub_eq_zero_of_le hl]
  · intro h
    refine ⟨?_, ?_⟩
    · simp only [lastN, List.length_drop]
      omega
    · simp [lastN, List.take_append_drop]
  · intro st m
    cases hcc : clinic_context_of (retrieved_clinics st m) with
    | error e =>
      refine ⟨⟨[Turn.mk "user" m], ?_⟩, ?_⟩ <;> simp [chat, hcc]
    | ok ctx =>
      refine ⟨⟨[Turn.mk "user" m, Turn.mk "assistant" (chat_reply st m ctx)], ?_⟩, ?_⟩ <;>
        simp [chat, hcc]

/-- Witness for C8: a two-turn history is returned whole by the window. -/
theorem active_window_witness :
    ([Turn.mk "user" "a", Turn.mk "assistant" "b"] : List Turn).length ≤ 5
    ∧ lastN 5 [Turn.mk "user" "a", Turn.mk "assistant" "b"]
        = [Turn.mk "user" "a", Turn.mk "assistant" "b"] :=
  ⟨by decide,
   active_window_spec.1 [Turn.mk "user" "a", Turn.mk "assistant" "b"] (by decide)⟩

/-- C9 counterexample: the record located in tokyo is returned for the
query shibuya because its area field matches, even though the query is
not a substring of its location field — so membership is not decided by
the region/location field alone. -/
theorem location_filter_cex :
    filter_by_location [c9x] "shibuya" = [c9x]
    ∧ strIn (pyLower "shibuya") (pyLower (c9x.location.getD "")) = false :=
  ⟨rfl, rfl⟩

/-- C9 amended: filter_by_location returns, in original load order,
exactly those records for which the query is a case-insensitive
substring of the location field OR of the area field (two fields, not
one). -/
theorem filter_by_location_spec (clinics : List Clinic) (q : String) :
    List.Sublist (filter_by_location clinics q) clinics
    ∧ ∀ c, c ∈ filter_by_location clinics q ↔
        c ∈ clinics ∧
          ((∃ pre post, (pyLower (c.location.getD "")).data = pre ++ (pyLower q).data ++ post)
           ∨ (∃ pre post, (pyLower (c.area.getD "")).data = pre ++ (pyLower q).data ++ post)) := by
  refine ⟨List.filter_sublist clinics, ?_⟩
  intro c
  rw [filter_by_location, List.mem_filter]
  simp only [Bool.or_eq_true, strIn_iff]

/-- Witness for C9: t1 (location tokyo) is kept for the query tok through
the location leg of the disjunction. -/
theorem filter_by_location_witness :
    t1 ∈ filter_by_location demoStore "tok" :=
  ((filter_by_location_spec demoStore "tok").2 t1).mpr
    ⟨List.mem_cons_self t1 [t2], Or.inl ⟨[], "yo".data, by decide⟩⟩

/-- C3 at its failing input: the server keeps one process-wide history, so
after session B speaks, session A's identical request leaves a history
that contains B's turn and differs from the history of a B-free run —
sessions read and append to the same turn sequence. -/
theorem shared_context_leak :
    (hist_of (runRequests (init_advisor []) { advisor := none } [("A", "hello")])).length = 2
    ∧ (hist_of (runRequests (init_advisor [])
        { advisor := none } [("B", "where is it"), ("A", "hello")])).length = 4
    ∧ Turn.mk "user" "where is it"
        ∈ hist_of (runRequests (init_advisor [])
            { advisor := none } [("B", "where is it"), ("A", "hello")])
    ∧ hist_of (runRequests (init_advisor []) { advisor := none } [("A", "hello")])
        ≠ hist_of (runRequests (init_advisor [])
            { advisor := none } [("B", "where is it"), ("A", "hello")]) := by
  refine ⟨rfl, rfl, by decide, by decide⟩

/-- C10 counterexample: on a store whose matching record lacks a name key,
a chat message that triggers search raises out of the formatting loop
after the user turn was appended: the call returns an error and leaves
exactly one new, unpaired user entry in the history. -/
theorem chat_unpaired_cex :
    (chat (init_advisor [badClinic]) "find me").1.conversation_history
      = [Turn.mk "user" "find me"]
    ∧ (chat (init_advisor [badClinic]) "find me").2 = Except.error () :=
  ⟨rfl, rfl⟩

/-- C10 amended: whenever composing the clinic context does not raise (in
particular whenever no search fires, no record is retrieved, or every
displayed record has a name), chat appends exactly two entries — the
user turn, then an assistant turn holding the returned reply — on every
path, including when the generation backend is absent or raises; but
when the clinic context raises (a displayed record without a name), the
exception propagates and the history is left with only the unpaired user
turn appended. -/
theorem chat_appends_pair (st : ChatSt) (m : String) :
    (∀ ctx, clinic_context_of (retrieved_clinics st m) = Except.ok ctx →
      ∃ r, (chat st m).2 = Except.ok r
        ∧ (chat st m).1.conversation_history
            = st.conversation_history ++ [Turn.mk "user" m, Turn.mk "assistant" r])
    ∧ (∀ e, clinic_context_of (retrieved_clinics st m) = Except.error e →
      (chat st m).2 = Except.error e
        ∧ (chat st m).1.conversation_history
            = st.conversation_history ++ [Turn.mk "user" m]) := by
  constructor
  · intro ctx hcc
    refine ⟨chat_reply st m ctx, ?_, ?_⟩ <;> simp [chat, hcc]
  · intro e hcc
    constructor <;> simp [chat, hcc]

/-- Witness for C10: on an empty store a plain message appends exactly the
user/assistant pair. -/
theorem chat_appends_witness :
    clinic_context_of (retrieved_clinics (init_advisor []) "hi") = Except.ok ""
    ∧ ∃ r, (chat (init_advisor []) "hi").2 = Except.ok r
        ∧ (chat (init_advisor []) "hi").1.conversation_history
            = (init_advisor []).conversation_history
              ++ [Turn.mk "user" "hi", Turn.mk "assistant" r] :=
  ⟨rfl, (chat_appends_pair (init_advisor []) "hi").1 "" rfl⟩
